import Mathlib

/-!
# Verification of the Tic-Tac-Toe board model and minimax search

A shallow embedding of the program consisting of `Board.py` (the immutable
board-state model) and `TicTacToe.py` (the minimax search engine), together
with theorems checking the specification of that program.

Modelling conventions:

* `Player` embeds the three-valued `Player` enum (`X`, `O`, `NONE`).
* A `Board` carries the list of nine cell occupants (`Square` objects hold a
  single `Player` value, so a square is embedded as a `Player`) and the
  player whose turn is next.  Per the data model of the specification a
  board state always has exactly nine cells and a genuine player (not the
  empty marker) to move; these two construction invariants are carried as
  proof fields.  Python mutation-by-copy (`copy.deepcopy` followed by
  `setPlayer` on the copy) is embedded as a pure function producing a new
  `Board` value.
* `getLegalMoves` in the source shuffles the list of empty cells
  (`random.sample`).  The embedding returns the canonical ascending order;
  all possible shuffled orders are quantified over explicitly via list
  permutations (see `minimaxRun`, `findBestMoveOn` and the order-invariance
  theorems).
* `getNewBoardWithMove` raises `ValueError` (the InvalidMove error) on an
  illegal index; the embedding returns `Option Board` with `none` as the
  error outcome.
* `minimax` recurses on boards with strictly fewer empty cells; the
  embedding uses an explicit fuel argument (`minimaxF`), and `minimax` runs
  it with fuel 9, which is proven sufficient for every board
  (`minimaxF_fuel_irrel`, `minimax_unfold`).
* Python `float("-inf")` / `float("inf")` initial accumulators are embedded
  as the integers `-2` / `2`: every comparison made by the source compares
  them against minimax results, which always lie in `[-1, 1]`
  (`minimaxF_bounds`), so `-2` and `2` are faithful stand-ins.
-/

inductive Player where
  | X
  | O
  | NONE
deriving DecidableEq

/-- Board state: nine cell occupants (row-major) plus the player to move.
The proof fields record the data-model invariants: nine cells, and the
to-move field is an actual player. -/
structure Board where
  board : List Player
  currentPlayer : Player
  hlen : board.length = 9
  hcur : currentPlayer ≠ Player.NONE

/-- Occupant of cell `i` (source: `self._board[i].getPlayer()`). -/
def Board.cell (b : Board) (i : Nat) : Player := b.board.getD i Player.NONE

/-- Source: the `oppositePlayer` property of `Board`. -/
def Board.oppositePlayer (b : Board) : Player :=
  if b.currentPlayer = Player.X then Player.O
  else if b.currentPlayer = Player.O then Player.X
  else Player.NONE

theorem Board.oppositePlayer_ne (b : Board) : b.oppositePlayer ≠ Player.NONE := by
  have h := b.hcur
  unfold Board.oppositePlayer
  rcases hc : b.currentPlayer <;> simp [hc] at h ⊢

/-- Source: `getLegalMoves`, the indices of all empty cells.  The source
shuffles the result with `random.sample`; the embedding fixes the ascending
order and quantifies over permutations where order matters. -/
def Board.getLegalMoves (b : Board) : List Nat :=
  (List.range b.board.length).filter (fun s => b.cell s == Player.NONE)

/-- The success path of `getNewBoardWithMove`: take the square for the
current player (on a fresh copy, embedded as a pure value) and pass the
turn.  Only ever reached/used with a legal `m`. -/
def Board.applyMoveL (b : Board) (m : Nat) : Board :=
  { board := b.board.set m b.currentPlayer
    currentPlayer := b.oppositePlayer
    hlen := by rw [List.length_set]; exact b.hlen
    hcur := b.oppositePlayer_ne }

/-- Source: `getNewBoardWithMove`.  Raising `ValueError` (InvalidMove) is
embedded as `none`.  The index is an arbitrary integer, as in Python. -/
def Board.getNewBoardWithMove (b : Board) (square : Int) : Option Board :=
  if square ∈ b.getLegalMoves.map Int.ofNat then
    some (b.applyMoveL square.toNat)
  else
    none

/-- The eight winning lines of `isWin` (source: `wins`). -/
def winTriples : List (Nat × Nat × Nat) :=
  [(0,1,2), (3,4,5), (6,7,8), (0,3,6), (1,4,7), (2,5,8), (0,4,8), (2,4,6)]

/-- Source: `isWin`. -/
def Board.isWin (b : Board) : Bool :=
  winTriples.any (fun w =>
    b.cell w.1 == b.cell w.2.1 && b.cell w.2.1 == b.cell w.2.2 &&
      b.cell w.2.2 != Player.NONE)

/-- Source: `isDraw`. -/
def Board.isDraw (b : Board) : Bool :=
  !b.isWin && b.getLegalMoves.length == 0

/-- Source: `evaluate`. -/
def Board.evaluate (b : Board) (originalPlayer : Player) : Int :=
  if b.isWin ∧ b.currentPlayer = originalPlayer then -1
  else if b.isWin ∧ b.currentPlayer ≠ originalPlayer then 1
  else 0

/-- The empty initial board: all cells empty, `X` to move
(source: `Board()` with the default arguments). -/
def initialBoard : Board :=
  ⟨List.replicate 9 Player.NONE, Player.X, by decide, by decide⟩

/-- Fuelled minimax; `minimax` below runs it with fuel 9, which never runs
out on a nine-cell board (`minimax_unfold`).  Source: `minimax` in
`TicTacToe.py`; the max/min folds embed the
`if result > best_result / if result < worst_result` accumulator loops,
with `-2` / `2` for `float("-inf")` / `float("inf")`. -/
def minimaxF : Nat → Board → Bool → Player → Int
  | 0, b, _, p => b.evaluate p
  | f+1, b, mx, p =>
    if b.isWin || b.isDraw then b.evaluate p
    else if mx then
      (b.getLegalMoves.map (fun m => minimaxF f (b.applyMoveL m) false p)).foldl max (-2)
    else
      (b.getLegalMoves.map (fun m => minimaxF f (b.applyMoveL m) true p)).foldl min 2

/-- Source: `minimax(current_board, is_maximizing, original_player)`. -/
def minimax (b : Board) (isMaximizing : Bool) (originalPlayer : Player) : Int :=
  minimaxF 9 b isMaximizing originalPlayer

/-- Source: the loop body of `findBestMove`, run on an explicit list `l` of
moves (the source iterates over a shuffled `getLegalMoves()`; theorems
quantify over all permutations `l` of the legal moves).  The accumulator
pairs `best_result` (initially `float("-inf")`, embedded as `-2`) with
`best_move` (initially `None`). -/
def findBestMoveOn (l : List Nat) (b : Board) : Option Nat :=
  (l.foldl
    (fun acc m =>
      let result := minimax (b.applyMoveL m) false b.currentPlayer
      if result > acc.1 then (result, some m) else acc)
    ((-2 : Int), (none : Option Nat))).2

/-- Source: `findBestMove` (with the canonical move order). -/
def findBestMove (b : Board) : Option Nat :=
  findBestMoveOn b.getLegalMoves b

/-! ## Basic facts about players and boards -/

theorem Board.oppositePlayer_ne_self (b : Board) : b.oppositePlayer ≠ b.currentPlayer := by
  have h := b.hcur
  unfold Board.oppositePlayer
  rcases hc : b.currentPlayer <;> simp [hc] at h ⊢

theorem Board.applyMoveL_currentPlayer (b : Board) (m : Nat) :
    (b.applyMoveL m).currentPlayer = b.oppositePlayer := rfl

theorem Board.applyMoveL_board (b : Board) (m : Nat) :
    (b.applyMoveL m).board = b.board.set m b.currentPlayer := rfl

theorem Board.oppositePlayer_oppositePlayer (b : Board) (m : Nat) :
    (b.applyMoveL m).oppositePlayer = b.currentPlayer := by
  have h := b.hcur
  unfold Board.oppositePlayer
  rw [Board.applyMoveL_currentPlayer]
  unfold Board.oppositePlayer
  rcases hc : b.currentPlayer <;> simp [hc] at h ⊢

theorem Board.cell_applyMoveL (b : Board) (m s : Nat) (hm : m < 9) :
    (b.applyMoveL m).cell s = if s = m then b.currentPlayer else b.cell s := by
  unfold Board.cell
  rw [Board.applyMoveL_board]
  rcases lt_or_ge s b.board.length with hs | hs
  · rw [List.getD_eq_getElem _ _ (by simpa using hs), List.getD_eq_getElem _ _ hs,
      List.getElem_set]
    split
    · simp_all
    · split
      · omega
      · rfl
  · have h9 : (9 : Nat) ≤ s := b.hlen ▸ hs
    rw [List.getD_eq_default _ _ (by simpa using hs), List.getD_eq_default _ _ hs]
    have : s ≠ m := by omega
    simp [this]

theorem Board.mem_getLegalMoves (b : Board) (m : Nat) :
    m ∈ b.getLegalMoves ↔ m < 9 ∧ b.cell m = Player.NONE := by
  unfold Board.getLegalMoves
  rw [b.hlen]
  simp [List.mem_filter, List.mem_range]

theorem Board.getLegalMoves_nodup (b : Board) : b.getLegalMoves.Nodup := by
  unfold Board.getLegalMoves
  exact (List.nodup_range _).filter _

theorem Board.getLegalMoves_applyMoveL (b : Board) (m : Nat) (hm : m ∈ b.getLegalMoves) :
    (b.applyMoveL m).getLegalMoves = b.getLegalMoves.filter (fun s => s ≠ m) := by
  have hm9 : m < 9 := ((b.mem_getLegalMoves m).1 hm).1
  unfold Board.getLegalMoves
  rw [(b.applyMoveL m).hlen, b.hlen, List.filter_filter]
  apply List.filter_congr
  intro s _
  rw [Board.cell_applyMoveL _ _ _ hm9]
  rcases eq_or_ne s m with h | h
  · subst h
    simp [b.hcur]
  · simp [h]

theorem Board.length_getLegalMoves_applyMoveL (b : Board) (m : Nat)
    (hm : m ∈ b.getLegalMoves) :
    (b.applyMoveL m).getLegalMoves.length = b.getLegalMoves.length - 1 := by
  rw [Board.getLegalMoves_applyMoveL b m hm]
  have hnd := b.getLegalMoves_nodup
  have herase : b.getLegalMoves.filter (fun s => s ≠ m) = b.getLegalMoves.erase m := by
    rw [List.Nodup.erase_eq_filter hnd]
    apply List.filter_congr
    intro s _
    simp [bne, beq_eq_decide]
  rw [herase, List.length_erase_of_mem hm]

theorem Board.getLegalMoves_length_le (b : Board) : b.getLegalMoves.length ≤ 9 := by
  unfold Board.getLegalMoves
  calc ((List.range b.board.length).filter _).length
      ≤ (List.range b.board.length).length := List.length_filter_le _ _
    _ = 9 := by rw [List.length_range, b.hlen]

theorem Board.terminal_of_legal_nil (b : Board) (h : b.getLegalMoves = []) :
    (b.isWin || b.isDraw) = true := by
  cases hw : b.isWin
  · simp [Board.isDraw, hw, h]
  · simp

theorem Board.legal_ne_nil_of_nonterminal (b : Board) (h : (b.isWin || b.isDraw) = false) :
    b.getLegalMoves ≠ [] := by
  intro hnil
  rw [b.terminal_of_legal_nil hnil] at h
  exact absurd h (by decide)

/-! ## Fold helpers for the max/min accumulator loops -/

theorem foldl_max_le_init (l : List Int) (a : Int) : a ≤ l.foldl max a := by
  induction l generalizing a with
  | nil => exact le_refl a
  | cons x xs ih => exact le_trans (le_max_left a x) (ih (max a x))

theorem le_foldl_max (l : List Int) (a : Int) : ∀ x ∈ l, x ≤ l.foldl max a := by
  induction l generalizing a with
  | nil => intro x hx; cases hx
  | cons y ys ih =>
    intro x hx
    rcases List.mem_cons.1 hx with h | h
    · subst h
      exact le_trans (le_max_right a x) (foldl_max_le_init ys (max a x))
    · exact ih (max a y) x h

theorem foldl_max_mem (l : List Int) (a : Int) :
    l.foldl max a = a ∨ l.foldl max a ∈ l := by
  induction l generalizing a with
  | nil => exact Or.inl rfl
  | cons x xs ih =>
    rcases ih (max a x) with h | h
    · rcases max_choice a x with hm | hm
      · exact Or.inl (by rw [List.foldl_cons, h, hm])
      · exact Or.inr (by rw [List.foldl_cons, h, hm]; exact List.mem_cons_self x xs)
    · exact Or.inr (List.mem_cons_of_mem x h)

theorem foldl_min_init_le (l : List Int) (a : Int) : l.foldl min a ≤ a := by
  induction l generalizing a with
  | nil => exact le_refl a
  | cons x xs ih => exact le_trans (ih (min a x)) (min_le_left a x)

theorem foldl_min_le (l : List Int) (a : Int) : ∀ x ∈ l, l.foldl min a ≤ x := by
  induction l generalizing a with
  | nil => intro x hx; cases hx
  | cons y ys ih =>
    intro x hx
    rcases List.mem_cons.1 hx with h | h
    · subst h
      exact le_trans (foldl_min_init_le ys (min a x)) (min_le_right a x)
    · exact ih (min a y) x h

theorem foldl_min_mem (l : List Int) (a : Int) :
    l.foldl min a = a ∨ l.foldl min a ∈ l := by
  induction l generalizing a with
  | nil => exact Or.inl rfl
  | cons x xs ih =>
    rcases ih (min a x) with h | h
    · rcases min_choice a x with hm | hm
      · exact Or.inl (by rw [List.foldl_cons, h, hm])
      · exact Or.inr (by rw [List.foldl_cons, h, hm]; exact List.mem_cons_self x xs)
    · exact Or.inr (List.mem_cons_of_mem x h)

theorem foldl_map_neg_max (l : List Int) (a : Int) :
    (l.map (fun x => -x)).foldl max a = -(l.foldl min (-a)) := by
  induction l generalizing a with
  | nil => simp
  | cons x xs ih =>
    rw [List.map_cons, List.foldl_cons, List.foldl_cons, ih (max a (-x))]
    congr 1
    rw [neg_sup, neg_neg]

/-! ## Fuel irrelevance and the unfolding equation of minimax -/

theorem minimaxF_terminal (f : Nat) (b : Board) (mx : Bool) (p : Player)
    (h : (b.isWin || b.isDraw) = true) : minimaxF f b mx p = b.evaluate p := by
  cases f with
  | zero => rfl
  | succ f => rw [minimaxF, if_pos h]

theorem minimaxF_succ_max (f : Nat) (b : Board) (p : Player)
    (ht : (b.isWin || b.isDraw) = false) :
    minimaxF (f+1) b true p =
      (b.getLegalMoves.map (fun m => minimaxF f (b.applyMoveL m) false p)).foldl max (-2) := by
  rw [minimaxF]
  simp [ht]

theorem minimaxF_succ_min (f : Nat) (b : Board) (p : Player)
    (ht : (b.isWin || b.isDraw) = false) :
    minimaxF (f+1) b false p =
      (b.getLegalMoves.map (fun m => minimaxF f (b.applyMoveL m) true p)).foldl min 2 := by
  rw [minimaxF]
  simp [ht]

theorem minimaxF_fuel_irrel :
    ∀ f g : Nat, ∀ (b : Board) (mx : Bool) (p : Player),
      b.getLegalMoves.length ≤ f → b.getLegalMoves.length ≤ g →
      minimaxF f b mx p = minimaxF g b mx p := by
  intro f
  induction f with
  | zero =>
    intro g b mx p hf _
    have hnil : b.getLegalMoves = [] := List.length_eq_zero.1 (Nat.le_zero.1 hf)
    rw [minimaxF_terminal 0 b mx p (b.terminal_of_legal_nil hnil),
      minimaxF_terminal g b mx p (b.terminal_of_legal_nil hnil)]
  | succ f ih =>
    intro g b mx p hf hg
    cases g with
    | zero =>
      have hnil : b.getLegalMoves = [] := List.length_eq_zero.1 (Nat.le_zero.1 hg)
      rw [minimaxF_terminal (f + 1) b mx p (b.terminal_of_legal_nil hnil),
        minimaxF_terminal 0 b mx p (b.terminal_of_legal_nil hnil)]
    | succ g =>
      cases ht : (b.isWin || b.isDraw) with
      | true => rw [minimaxF_terminal _ b mx p ht, minimaxF_terminal _ b mx p ht]
      | false =>
        have hchild : ∀ m ∈ b.getLegalMoves,
            (b.applyMoveL m).getLegalMoves.length ≤ f ∧
            (b.applyMoveL m).getLegalMoves.length ≤ g := by
          intro m hm
          rw [Board.length_getLegalMoves_applyMoveL b m hm]
          have hpos : 1 ≤ b.getLegalMoves.length :=
            List.length_pos.2 (b.legal_ne_nil_of_nonterminal ht)
          omega
        cases mx with
        | true =>
          rw [minimaxF_succ_max f b p ht, minimaxF_succ_max g b p ht]
          congr 1
          apply List.map_congr_left
          intro m hm
          exact ih g (b.applyMoveL m) false p (hchild m hm).1 (hchild m hm).2
        | false =>
          rw [minimaxF_succ_min f b p ht, minimaxF_succ_min g b p ht]
          congr 1
          apply List.map_congr_left
          intro m hm
          exact ih g (b.applyMoveL m) true p (hchild m hm).1 (hchild m hm).2

theorem minimax_unfold (b : Board) (mx : Bool) (p : Player) :
    minimax b mx p =
      if (b.isWin || b.isDraw) = true then b.evaluate p
      else if mx then
        (b.getLegalMoves.map (fun m => minimax (b.applyMoveL m) false p)).foldl max (-2)
      else
        (b.getLegalMoves.map (fun m => minimax (b.applyMoveL m) true p)).foldl min 2 := by
  unfold minimax
  cases ht : (b.isWin || b.isDraw) with
  | true => rw [if_pos rfl, minimaxF_terminal _ b mx p ht]
  | false =>
    rw [if_neg (by simp)]
    have h9 : ∀ mx2, minimaxF 9 b mx2 p = minimaxF (8+1) b mx2 p := fun _ => rfl
    have hchild : ∀ m ∈ b.getLegalMoves, ∀ mx2,
        minimaxF 8 (b.applyMoveL m) mx2 p = minimaxF 9 (b.applyMoveL m) mx2 p := by
      intro m hm mx2
      apply minimaxF_fuel_irrel
      · rw [Board.length_getLegalMoves_applyMoveL b m hm]
        have := b.getLegalMoves_length_le
        omega
      · exact (b.applyMoveL m).getLegalMoves_length_le
    cases mx with
    | true =>
      rw [if_pos rfl, h9, minimaxF_succ_max 8 b p ht]
      apply congrArg (fun l => List.foldl max (-2) l)
      apply List.map_congr_left
      intro m hm
      exact hchild m hm false
    | false =>
      rw [if_neg (by simp), h9, minimaxF_succ_min 8 b p ht]
      apply congrArg (fun l => List.foldl min 2 l)
      apply List.map_congr_left
      intro m hm
      exact hchild m hm true

/-! ## Bounds on minimax values -/

theorem evaluate_bounds (b : Board) (p : Player) :
    -1 ≤ b.evaluate p ∧ b.evaluate p ≤ 1 := by
  unfold Board.evaluate
  split
  · omega
  · split
    · omega
    · omega

theorem minimaxF_bounds :
    ∀ (f : Nat) (b : Board) (mx : Bool) (p : Player),
      -1 ≤ minimaxF f b mx p ∧ minimaxF f b mx p ≤ 1 := by
  intro f
  induction f with
  | zero => intro b mx p; exact evaluate_bounds b p
  | succ f ih =>
    intro b mx p
    cases ht : (b.isWin || b.isDraw) with
    | true => rw [minimaxF_terminal _ b mx p ht]; exact evaluate_bounds b p
    | false =>
      obtain ⟨m0, hm0⟩ := List.exists_mem_of_ne_nil _ (b.legal_ne_nil_of_nonterminal ht)
      cases mx with
      | true =>
        rw [minimaxF_succ_max f b p ht]
        set l := b.getLegalMoves.map (fun m => minimaxF f (b.applyMoveL m) false p) with hl
        have hml : minimaxF f (b.applyMoveL m0) false p ∈ l :=
          hl ▸ List.mem_map_of_mem _ hm0
        constructor
        · exact le_trans (ih (b.applyMoveL m0) false p).1 (le_foldl_max l (-2) _ hml)
        · rcases foldl_max_mem l (-2) with h | h
          · rw [h]; omega
          · obtain ⟨m, hm, hmeq⟩ := List.mem_map.1 (hl ▸ h)
            rw [← hmeq]
            exact (ih (b.applyMoveL m) false p).2
      | false =>
        rw [minimaxF_succ_min f b p ht]
        set l := b.getLegalMoves.map (fun m => minimaxF f (b.applyMoveL m) true p) with hl
        have hml : minimaxF f (b.applyMoveL m0) true p ∈ l :=
          hl ▸ List.mem_map_of_mem _ hm0
        constructor
        · rcases foldl_min_mem l 2 with h | h
          · rw [h]; omega
          · obtain ⟨m, hm, hmeq⟩ := List.mem_map.1 (hl ▸ h)
            rw [← hmeq]
            exact (ih (b.applyMoveL m) true p).1
        · exact le_trans (foldl_min_le l 2 _ hml) (ih (b.applyMoveL m0) true p).2

theorem minimax_bounds (b : Board) (mx : Bool) (p : Player) :
    -1 ≤ minimax b mx p ∧ minimax b mx p ≤ 1 :=
  minimaxF_bounds 9 b mx p

/-! ## Zero-sum duality between the two perspective players -/

theorem evaluate_neg (b : Board) (p q : Player) (hp : p ≠ Player.NONE)
    (hq : q ≠ Player.NONE) (hpq : p ≠ q) : b.evaluate p = -(b.evaluate q) := by
  have hc := b.hcur
  unfold Board.evaluate
  cases hw : b.isWin with
  | false => simp [hw]
  | true =>
    rcases hp2 : p <;> rcases hq2 : q <;> rcases hc2 : b.currentPlayer <;> simp_all

theorem minimaxF_neg :
    ∀ (f : Nat) (b : Board) (mx : Bool) (p q : Player), p ≠ Player.NONE →
      q ≠ Player.NONE → p ≠ q → minimaxF f b mx p = -(minimaxF f b (!mx) q) := by
  intro f
  induction f with
  | zero => intro b mx p q hp hq hpq; exact evaluate_neg b p q hp hq hpq
  | succ f ih =>
    intro b mx p q hp hq hpq
    cases ht : (b.isWin || b.isDraw) with
    | true =>
      rw [minimaxF_terminal _ _ _ _ ht, minimaxF_terminal _ _ _ _ ht]
      exact evaluate_neg b p q hp hq hpq
    | false =>
      cases mx with
      | true =>
        rw [minimaxF_succ_max f b p ht, Bool.not_true, minimaxF_succ_min f b q ht]
        have hmap : b.getLegalMoves.map (fun m => minimaxF f (b.applyMoveL m) false p)
            = (b.getLegalMoves.map (fun m => minimaxF f (b.applyMoveL m) true q)).map
                (fun x => -x) := by
          rw [List.map_map]
          apply List.map_congr_left
          intro m hm
          exact ih (b.applyMoveL m) false p q hp hq hpq
        rw [hmap, foldl_map_neg_max]
        norm_num
      | false =>
        rw [minimaxF_succ_min f b p ht, Bool.not_false, minimaxF_succ_max f b q ht]
        have hmap : b.getLegalMoves.map (fun m => minimaxF f (b.applyMoveL m) false q)
            = (b.getLegalMoves.map (fun m => minimaxF f (b.applyMoveL m) true p)).map
                (fun x => -x) := by
          rw [List.map_map]
          apply List.map_congr_left
          intro m hm
          exact ih (b.applyMoveL m) false q p hq hp hpq.symm
        rw [hmap, foldl_map_neg_max]
        norm_num

theorem minimax_neg (b : Board) (mx : Bool) (p q : Player) (hp : p ≠ Player.NONE)
    (hq : q ≠ Player.NONE) (hpq : p ≠ q) : minimax b mx p = -(minimax b (!mx) q) :=
  minimaxF_neg 9 b mx p q hp hq hpq

/-! ## Strategy certificates

To obtain the game value of the empty board without a full kernel
evaluation of the 549946-node search tree, we check two small strategy
certificates: a decision tree for `X` showing `X` can force a result of at
least a draw, and one for `O` showing the same for `O`.  Combined with the
zero-sum duality this pins the empty-board minimax value to `0`. -/

/-- A strategy decision tree: the move the strategy plays in the current
position, together with subtrees for each opponent reply that does not end
the game. -/
inductive STree where
  | node : Nat → List (Nat × STree) → STree

/-- Check that following the decision tree `t` for player `p` (to move in
`b`) guarantees an outcome with `evaluate p ≥ 0` at every reachable leaf. -/
def checkTree : Nat → Player → Board → STree → Bool
  | 0, _, _, _ => false
  | f+1, p, b, STree.node m replies =>
    decide (m ∈ b.getLegalMoves) &&
    (let b1 := b.applyMoveL m
     if b1.isWin then true
     else if b1.getLegalMoves.isEmpty then true
     else b1.getLegalMoves.all (fun o =>
       let b2 := b1.applyMoveL o
       if b2.isWin then false
       else if b2.getLegalMoves.isEmpty then true
       else match replies.lookup o with
         | none => false
         | some t2 => checkTree f p b2 t2))

/-- Check a certificate for player `p` in a position where the opponent is
to move: every opponent move must keep the guarantee. -/
def checkOpp (f : Nat) (p : Player) (b : Board) (replies : List (Nat × STree)) : Bool :=
  b.getLegalMoves.all (fun o =>
    let b2 := b.applyMoveL o
    if b2.isWin then false
    else if b2.getLegalMoves.isEmpty then true
    else match replies.lookup o with
      | none => false
      | some t2 => checkTree f p b2 t2)

theorem checkTree_succ (f : Nat) (p : Player) (b : Board) (m : Nat)
    (replies : List (Nat × STree)) :
    checkTree (f+1) p b (STree.node m replies) =
      (decide (m ∈ b.getLegalMoves) &&
        (let b1 := b.applyMoveL m
         if b1.isWin then true
         else if b1.getLegalMoves.isEmpty then true
         else checkOpp f p b1 replies)) := rfl

theorem evaluate_draw (b : Board) (p : Player) (hw : b.isWin = false) :
    b.evaluate p = 0 := by
  unfold Board.evaluate
  rw [if_neg (by simp [hw]), if_neg (by simp [hw])]

theorem evaluate_win_opponent (b : Board) (p : Player) (hw : b.isWin = true)
    (hc : b.currentPlayer ≠ p) : b.evaluate p = 1 := by
  unfold Board.evaluate
  rw [if_neg (by simp [hc]), if_pos (by simp [hw, hc])]

theorem minimax_terminal (b : Board) (mx : Bool) (p : Player)
    (h : (b.isWin || b.isDraw) = true) : minimax b mx p = b.evaluate p :=
  minimaxF_terminal 9 b mx p h

theorem isDraw_of_legal_nil (b : Board) (hw : b.isWin = false)
    (h : b.getLegalMoves = []) : b.isDraw = true := by
  simp [Board.isDraw, hw, h]

theorem terminal_of_isEmpty (b : Board) (h : b.getLegalMoves.isEmpty = true) :
    (b.isWin || b.isDraw) = true :=
  b.terminal_of_legal_nil (List.isEmpty_iff.1 h)

theorem Board.oppositePlayer_eq (b : Board) (p : Player) (hp : p ≠ Player.NONE)
    (hc : b.currentPlayer ≠ p) : b.oppositePlayer = p := by
  have h := b.hcur
  unfold Board.oppositePlayer
  rcases hc2 : b.currentPlayer <;> rcases hp2 : p <;> simp_all

/-- Soundness of the opponent-move loop shared by `checkTree` and
`checkOpp`, with the fuel-`f` tree soundness supplied as a hypothesis. -/
theorem oppLoop_sound (f : Nat) (p : Player) (b : Board)
    (replies : List (Nat × STree)) (hp : p ≠ Player.NONE)
    (hc : b.currentPlayer ≠ p) (hw : b.isWin = false)
    (hne : b.getLegalMoves ≠ [])
    (ih : ∀ (b2 : Board) (t2 : STree), b2.currentPlayer = p → b2.isWin = false →
      checkTree f p b2 t2 = true → 0 ≤ minimax b2 true p)
    (h : checkOpp f p b replies = true) : 0 ≤ minimax b false p := by
  have ht : (b.isWin || b.isDraw) = false := by
    simp [hw, Board.isDraw, hne]
  rw [minimax_unfold, if_neg (by simp [ht]), if_neg (by simp)]
  simp only [checkOpp, List.all_eq_true] at h
  have hvals : ∀ v ∈ b.getLegalMoves.map (fun o => minimax (b.applyMoveL o) true p),
      0 ≤ v := by
    intro v hv
    obtain ⟨o, ho, rfl⟩ := List.mem_map.1 hv
    have hb := h o ho
    rcases hb2w : (b.applyMoveL o).isWin with _ | _
    · rcases hb2e : (b.applyMoveL o).getLegalMoves.isEmpty with _ | _
      · rw [if_neg (by simp [hb2w]), if_neg (by simp [hb2e])] at hb
        rcases hlk : replies.lookup o with _ | t2
        · rw [hlk] at hb
          simp at hb
        · rw [hlk] at hb
          have hc2 : (b.applyMoveL o).currentPlayer = p := by
            rw [Board.applyMoveL_currentPlayer]
            exact b.oppositePlayer_eq p hp hc
          exact ih (b.applyMoveL o) t2 hc2 hb2w hb
      · have hterm := terminal_of_isEmpty _ hb2e
        rw [minimax_terminal _ _ _ hterm, evaluate_draw _ _ hb2w]
    · rw [if_pos (by simp [hb2w])] at hb
      exact absurd hb (by decide)
  rcases foldl_min_mem (b.getLegalMoves.map (fun o => minimax (b.applyMoveL o) true p)) 2
      with hm | hm
  · rw [hm]; omega
  · exact hvals _ hm

theorem checkTree_sound :
    ∀ (f : Nat) (p : Player) (b : Board) (t : STree), p ≠ Player.NONE →
      b.currentPlayer = p → b.isWin = false →
      checkTree f p b t = true → 0 ≤ minimax b true p := by
  intro f
  induction f with
  | zero =>
    intro p b t _ _ _ h
    rw [checkTree] at h
    exact absurd h (by decide)
  | succ f ih =>
    intro p b t hp hc hw h
    rcases t with ⟨m, replies⟩
    rw [checkTree_succ] at h
    simp only [Bool.and_eq_true] at h
    obtain ⟨hm, hrest⟩ := h
    have hm : m ∈ b.getLegalMoves := of_decide_eq_true hm
    have hne : b.getLegalMoves ≠ [] := List.ne_nil_of_mem hm
    have ht : (b.isWin || b.isDraw) = false := by
      simp [hw, Board.isDraw, hne]
    rw [minimax_unfold, if_neg (by simp [ht]), if_pos rfl]
    have helem : minimax (b.applyMoveL m) false p ∈
        b.getLegalMoves.map (fun m2 => minimax (b.applyMoveL m2) false p) :=
      List.mem_map_of_mem _ hm
    refine le_trans ?_ (le_foldl_max _ (-2) _ helem)
    have hc1 : (b.applyMoveL m).currentPlayer ≠ p := by
      rw [Board.applyMoveL_currentPlayer, ← hc]
      exact b.oppositePlayer_ne_self
    rcases hb1w : (b.applyMoveL m).isWin with _ | _
    · rcases hb1e : (b.applyMoveL m).getLegalMoves.isEmpty with _ | _
      · rw [if_neg (by simp [hb1w]), if_neg (by simp [hb1e])] at hrest
        exact oppLoop_sound f p (b.applyMoveL m) replies hp hc1 hb1w
          (fun hnil => by simp [hnil] at hb1e) (fun b2 t2 => ih p b2 t2 hp) hrest
      · have hterm := terminal_of_isEmpty _ hb1e
        rw [minimax_terminal _ _ _ hterm, evaluate_draw _ _ hb1w]
    · have hterm : ((b.applyMoveL m).isWin || (b.applyMoveL m).isDraw) = true := by
        simp [hb1w]
      rw [minimax_terminal _ _ _ hterm, evaluate_win_opponent _ _ hb1w hc1]
      omega

theorem checkOpp_sound (f : Nat) (p : Player) (b : Board)
    (replies : List (Nat × STree)) (hp : p ≠ Player.NONE)
    (hc : b.currentPlayer ≠ p) (hw : b.isWin = false)
    (hne : b.getLegalMoves ≠ [])
    (h : checkOpp f p b replies = true) : 0 ≤ minimax b false p :=
  oppLoop_sound f p b replies hp hc hw hne
    (fun b2 t2 => checkTree_sound f p b2 t2 hp) h

/-- Decision-tree certificate: X (moving first from the empty board) can
force an outcome of at least a draw. -/
def xCert : STree :=
  STree.node 0 [(1, STree.node 3 [(2, STree.node 4 [(5, STree.node 6 []), (6, STree.node 5 []),
  (7, STree.node 5 []), (8, STree.node 5 [])]), (4, STree.node 6 []), (5, STree.node 4 [(2,
  STree.node 6 []), (6, STree.node 8 []), (7, STree.node 2 [(6, STree.node 8 []), (8,
  STree.node 6 [])]), (8, STree.node 6 [])]), (6, STree.node 4 [(2, STree.node 5 []), (5,
  STree.node 8 []), (7, STree.node 5 []), (8, STree.node 5 [])]), (7, STree.node 4 [(2,
  STree.node 5 []), (5, STree.node 2 [(6, STree.node 8 []), (8, STree.node 6 [])]), (6,
  STree.node 5 []), (8, STree.node 5 [])]), (8, STree.node 4 [(2, STree.node 5 []), (5,
  STree.node 6 []), (6, STree.node 5 []), (7, STree.node 5 [])])]), (2, STree.node 3 [(1,
  STree.node 4 [(5, STree.node 6 []), (6, STree.node 5 []), (7, STree.node 5 []), (8,
  STree.node 5 [])]), (4, STree.node 6 []), (5, STree.node 6 []), (6, STree.node 4 [(1,
  STree.node 5 []), (5, STree.node 8 []), (7, STree.node 5 []), (8, STree.node 5 [])]), (7,
  STree.node 4 [(1, STree.node 5 []), (5, STree.node 6 []), (6, STree.node 5 []), (8,
  STree.node 5 [])]), (8, STree.node 5 [(1, STree.node 4 []), (4, STree.node 6 []), (6,
  STree.node 4 []), (7, STree.node 4 [])])]), (3, STree.node 1 [(2, STree.node 4 [(5,
  STree.node 7 []), (6, STree.node 5 [(7, STree.node 8 []), (8, STree.node 7 [])]), (7,
  STree.node 8 []), (8, STree.node 7 [])]), (4, STree.node 2 []), (5, STree.node 2 []), (6,
  STree.node 2 []), (7, STree.node 2 []), (8, STree.node 2 [])]), (4, STree.node 1 [(2,
  STree.node 6 [(3, STree.node 5 [(7, STree.node 8 []), (8, STree.node 7 [])]), (5, STree.node
  3 []), (7, STree.node 3 []), (8, STree.node 3 [])]), (3, STree.node 2 []), (5, STree.node 2
  []), (6, STree.node 2 []), (7, STree.node 2 []), (8, STree.node 2 [])]), (5, STree.node 2
  [(1, STree.node 4 [(3, STree.node 6 []), (6, STree.node 8 []), (7, STree.node 3 [(6,
  STree.node 8 []), (8, STree.node 6 [])]), (8, STree.node 6 [])]), (3, STree.node 1 []), (4,
  STree.node 1 []), (6, STree.node 1 []), (7, STree.node 1 []), (8, STree.node 1 [])]), (6,
  STree.node 1 [(2, STree.node 4 [(3, STree.node 5 [(7, STree.node 8 []), (8, STree.node 7
  [])]), (5, STree.node 7 []), (7, STree.node 8 []), (8, STree.node 7 [])]), (3, STree.node 2
  []), (4, STree.node 2 []), (5, STree.node 2 []), (7, STree.node 2 []), (8, STree.node 2
  [])]), (7, STree.node 2 [(1, STree.node 4 [(3, STree.node 5 [(6, STree.node 8 []), (8,
  STree.node 6 [])]), (5, STree.node 3 [(6, STree.node 8 []), (8, STree.node 6 [])]), (6,
  STree.node 8 []), (8, STree.node 6 [])]), (3, STree.node 1 []), (4, STree.node 1 []), (5,
  STree.node 1 []), (6, STree.node 1 []), (8, STree.node 1 [])]), (8, STree.node 2 [(1,
  STree.node 6 [(3, STree.node 4 []), (4, STree.node 3 []), (5, STree.node 3 []), (7,
  STree.node 3 [])]), (3, STree.node 1 []), (4, STree.node 1 []), (5, STree.node 1 []), (6,
  STree.node 1 []), (7, STree.node 1 [])])]

/-- Decision-tree certificate: O (moving second from the empty board) can
force an outcome of at least a draw, whatever X opens with. -/
def oCert : List (Nat × STree) :=
  [(0, STree.node 4 [(1, STree.node 2 [(3, STree.node 6 []), (5, STree.node 6 []), (6,
  STree.node 3 [(5, STree.node 7 []), (7, STree.node 5 []), (8, STree.node 5 [])]), (7,
  STree.node 3 [(5, STree.node 6 []), (6, STree.node 5 []), (8, STree.node 5 [])]), (8,
  STree.node 3 [(5, STree.node 6 []), (6, STree.node 5 []), (7, STree.node 5 [])])]), (2,
  STree.node 1 [(3, STree.node 7 []), (5, STree.node 7 []), (6, STree.node 3 [(5, STree.node 7
  []), (7, STree.node 5 []), (8, STree.node 5 [])]), (7, STree.node 3 [(5, STree.node 8 []),
  (6, STree.node 5 []), (8, STree.node 5 [])]), (8, STree.node 5 [(3, STree.node 7 []), (6,
  STree.node 3 []), (7, STree.node 3 [])])]), (3, STree.node 6 [(1, STree.node 2 []), (2,
  STree.node 1 [(5, STree.node 7 []), (7, STree.node 5 []), (8, STree.node 7 [])]), (5,
  STree.node 1 [(2, STree.node 7 []), (7, STree.node 2 []), (8, STree.node 2 [])]), (7,
  STree.node 2 []), (8, STree.node 1 [(2, STree.node 7 []), (5, STree.node 2 []), (7,
  STree.node 2 [])])]), (5, STree.node 1 [(2, STree.node 7 []), (3, STree.node 6 [(2,
  STree.node 7 []), (7, STree.node 2 []), (8, STree.node 2 [])]), (6, STree.node 7 []), (7,
  STree.node 6 [(2, STree.node 8 []), (3, STree.node 2 []), (8, STree.node 2 [])]), (8,
  STree.node 2 [(3, STree.node 6 []), (6, STree.node 7 []), (7, STree.node 6 [])])]), (6,
  STree.node 3 [(1, STree.node 5 []), (2, STree.node 1 [(5, STree.node 7 []), (7, STree.node 5
  []), (8, STree.node 5 [])]), (5, STree.node 1 [(2, STree.node 7 []), (7, STree.node 8 []),
  (8, STree.node 7 [])]), (7, STree.node 5 []), (8, STree.node 5 [])]), (7, STree.node 3 [(1,
  STree.node 2 [(5, STree.node 6 []), (6, STree.node 5 []), (8, STree.node 5 [])]), (2,
  STree.node 5 []), (5, STree.node 2 [(1, STree.node 6 []), (6, STree.node 8 []), (8,
  STree.node 6 [])]), (6, STree.node 5 []), (8, STree.node 5 [])]), (8, STree.node 1 [(2,
  STree.node 5 [(3, STree.node 7 []), (6, STree.node 3 []), (7, STree.node 3 [])]), (3,
  STree.node 6 [(2, STree.node 7 []), (5, STree.node 2 []), (7, STree.node 2 [])]), (5,
  STree.node 2 [(3, STree.node 6 []), (6, STree.node 7 []), (7, STree.node 6 [])]), (6,
  STree.node 7 []), (7, STree.node 6 [(2, STree.node 5 []), (3, STree.node 2 []), (5,
  STree.node 2 [])])])]), (1, STree.node 0 [(2, STree.node 3 [(4, STree.node 6 []), (5,
  STree.node 6 []), (6, STree.node 4 [(5, STree.node 8 []), (7, STree.node 5 []), (8,
  STree.node 5 [])]), (7, STree.node 4 [(5, STree.node 6 []), (6, STree.node 5 []), (8,
  STree.node 5 [])]), (8, STree.node 5 [(4, STree.node 6 []), (6, STree.node 4 []), (7,
  STree.node 4 [])])]), (3, STree.node 4 [(2, STree.node 8 []), (5, STree.node 2 [(6,
  STree.node 8 []), (7, STree.node 6 []), (8, STree.node 6 [])]), (6, STree.node 8 []), (7,
  STree.node 2 [(5, STree.node 6 []), (6, STree.node 8 []), (8, STree.node 6 [])]), (8,
  STree.node 2 [(5, STree.node 6 []), (6, STree.node 7 []), (7, STree.node 6 [])])]), (4,
  STree.node 7 [(2, STree.node 6 [(3, STree.node 8 []), (5, STree.node 3 []), (8, STree.node 3
  [])]), (3, STree.node 5 [(2, STree.node 6 []), (6, STree.node 2 []), (8, STree.node 2 [])]),
  (5, STree.node 3 [(2, STree.node 6 []), (6, STree.node 2 []), (8, STree.node 6 [])]), (6,
  STree.node 2 [(3, STree.node 5 []), (5, STree.node 3 []), (8, STree.node 3 [])]), (8,
  STree.node 2 [(3, STree.node 5 []), (5, STree.node 3 []), (6, STree.node 3 [])])]), (5,
  STree.node 6 [(2, STree.node 3 []), (3, STree.node 4 [(2, STree.node 8 []), (7, STree.node 2
  []), (8, STree.node 2 [])]), (4, STree.node 3 []), (7, STree.node 3 []), (8, STree.node 2
  [(3, STree.node 4 []), (4, STree.node 3 []), (7, STree.node 3 [])])]), (6, STree.node 4 [(2,
  STree.node 3 [(5, STree.node 8 []), (7, STree.node 5 []), (8, STree.node 5 [])]), (3,
  STree.node 8 []), (5, STree.node 8 []), (7, STree.node 8 []), (8, STree.node 7 [(2,
  STree.node 5 []), (3, STree.node 2 []), (5, STree.node 2 [])])]), (7, STree.node 4 [(2,
  STree.node 3 [(5, STree.node 6 []), (6, STree.node 5 []), (8, STree.node 5 [])]), (3,
  STree.node 2 [(5, STree.node 6 []), (6, STree.node 8 []), (8, STree.node 6 [])]), (5,
  STree.node 2 [(3, STree.node 6 []), (6, STree.node 8 []), (8, STree.node 6 [])]), (6,
  STree.node 8 []), (8, STree.node 6 [(2, STree.node 3 []), (3, STree.node 2 []), (5,
  STree.node 2 [])])]), (8, STree.node 4 [(2, STree.node 5 [(3, STree.node 6 []), (6,
  STree.node 3 []), (7, STree.node 3 [])]), (3, STree.node 2 [(5, STree.node 6 []), (6,
  STree.node 7 []), (7, STree.node 6 [])]), (5, STree.node 2 [(3, STree.node 6 []), (6,
  STree.node 7 []), (7, STree.node 6 [])]), (6, STree.node 7 [(2, STree.node 5 []), (3,
  STree.node 2 []), (5, STree.node 2 [])]), (7, STree.node 6 [(2, STree.node 3 []), (3,
  STree.node 2 []), (5, STree.node 2 [])])])]), (2, STree.node 4 [(0, STree.node 1 [(3,
  STree.node 7 []), (5, STree.node 7 []), (6, STree.node 3 [(5, STree.node 7 []), (7,
  STree.node 5 []), (8, STree.node 5 [])]), (7, STree.node 3 [(5, STree.node 8 []), (6,
  STree.node 5 []), (8, STree.node 5 [])]), (8, STree.node 5 [(3, STree.node 7 []), (6,
  STree.node 3 []), (7, STree.node 3 [])])]), (1, STree.node 0 [(3, STree.node 8 []), (5,
  STree.node 8 []), (6, STree.node 3 [(5, STree.node 8 []), (7, STree.node 5 []), (8,
  STree.node 5 [])]), (7, STree.node 3 [(5, STree.node 6 []), (6, STree.node 5 []), (8,
  STree.node 5 [])]), (8, STree.node 5 [(3, STree.node 6 []), (6, STree.node 3 []), (7,
  STree.node 3 [])])]), (3, STree.node 0 [(1, STree.node 8 []), (5, STree.node 8 []), (6,
  STree.node 1 [(5, STree.node 7 []), (7, STree.node 8 []), (8, STree.node 7 [])]), (7,
  STree.node 8 []), (8, STree.node 5 [(1, STree.node 6 []), (6, STree.node 7 []), (7,
  STree.node 6 [])])]), (5, STree.node 8 [(0, STree.node 1 [(3, STree.node 7 []), (6,
  STree.node 7 []), (7, STree.node 3 [])]), (1, STree.node 0 []), (3, STree.node 0 []), (6,
  STree.node 0 []), (7, STree.node 0 [])]), (6, STree.node 1 [(0, STree.node 3 [(5, STree.node
  7 []), (7, STree.node 5 []), (8, STree.node 5 [])]), (3, STree.node 0 [(5, STree.node 7 []),
  (7, STree.node 8 []), (8, STree.node 7 [])]), (5, STree.node 7 []), (7, STree.node 8 [(0,
  STree.node 3 []), (3, STree.node 0 []), (5, STree.node 0 [])]), (8, STree.node 7 [])]), (7,
  STree.node 3 [(0, STree.node 5 []), (1, STree.node 0 [(5, STree.node 6 []), (6, STree.node 5
  []), (8, STree.node 5 [])]), (5, STree.node 8 [(0, STree.node 1 []), (1, STree.node 0 []),
  (6, STree.node 0 [])]), (6, STree.node 5 []), (8, STree.node 5 [])]), (8, STree.node 5 [(0,
  STree.node 1 [(3, STree.node 7 []), (6, STree.node 3 []), (7, STree.node 3 [])]), (1,
  STree.node 3 []), (3, STree.node 0 [(1, STree.node 6 []), (6, STree.node 7 []), (7,
  STree.node 6 [])]), (6, STree.node 3 []), (7, STree.node 3 [])])]), (3, STree.node 0 [(1,
  STree.node 4 [(2, STree.node 8 []), (5, STree.node 2 [(6, STree.node 8 []), (7, STree.node 6
  []), (8, STree.node 6 [])]), (6, STree.node 8 []), (7, STree.node 2 [(5, STree.node 6 []),
  (6, STree.node 8 []), (8, STree.node 6 [])]), (8, STree.node 2 [(5, STree.node 6 []), (6,
  STree.node 7 []), (7, STree.node 6 [])])]), (2, STree.node 4 [(1, STree.node 8 []), (5,
  STree.node 8 []), (6, STree.node 1 [(5, STree.node 7 []), (7, STree.node 8 []), (8,
  STree.node 7 [])]), (7, STree.node 8 []), (8, STree.node 5 [(1, STree.node 6 []), (6,
  STree.node 7 []), (7, STree.node 6 [])])]), (4, STree.node 5 [(1, STree.node 7 [(2,
  STree.node 6 []), (6, STree.node 2 []), (8, STree.node 2 [])]), (2, STree.node 6 [(1,
  STree.node 7 []), (7, STree.node 1 []), (8, STree.node 1 [])]), (6, STree.node 2 [(1,
  STree.node 8 []), (7, STree.node 1 []), (8, STree.node 1 [])]), (7, STree.node 1 [(2,
  STree.node 6 []), (6, STree.node 2 []), (8, STree.node 2 [])]), (8, STree.node 1 [(2,
  STree.node 6 []), (6, STree.node 2 []), (7, STree.node 2 [])])]), (5, STree.node 4 [(1,
  STree.node 2 [(6, STree.node 8 []), (7, STree.node 6 []), (8, STree.node 6 [])]), (2,
  STree.node 8 []), (6, STree.node 1 [(2, STree.node 7 []), (7, STree.node 2 []), (8,
  STree.node 2 [])]), (7, STree.node 1 [(2, STree.node 8 []), (6, STree.node 2 []), (8,
  STree.node 2 [])]), (8, STree.node 2 [(1, STree.node 6 []), (6, STree.node 1 []), (7,
  STree.node 1 [])])]), (6, STree.node 1 [(2, STree.node 4 [(5, STree.node 7 []), (7,
  STree.node 8 []), (8, STree.node 7 [])]), (4, STree.node 2 []), (5, STree.node 2 []), (7,
  STree.node 2 []), (8, STree.node 2 [])]), (7, STree.node 2 [(1, STree.node 4 [(5, STree.node
  6 []), (6, STree.node 8 []), (8, STree.node 6 [])]), (4, STree.node 1 []), (5, STree.node 1
  []), (6, STree.node 1 []), (8, STree.node 1 [])]), (8, STree.node 2 [(1, STree.node 4 [(5,
  STree.node 6 []), (6, STree.node 7 []), (7, STree.node 6 [])]), (4, STree.node 1 []), (5,
  STree.node 1 []), (6, STree.node 1 []), (7, STree.node 1 [])])]), (4, STree.node 0 [(1,
  STree.node 7 [(2, STree.node 6 [(3, STree.node 8 []), (5, STree.node 3 []), (8, STree.node 3
  [])]), (3, STree.node 5 [(2, STree.node 6 []), (6, STree.node 2 []), (8, STree.node 2 [])]),
  (5, STree.node 3 [(2, STree.node 6 []), (6, STree.node 2 []), (8, STree.node 6 [])]), (6,
  STree.node 2 [(3, STree.node 5 []), (5, STree.node 3 []), (8, STree.node 3 [])]), (8,
  STree.node 2 [(3, STree.node 5 []), (5, STree.node 3 []), (6, STree.node 3 [])])]), (2,
  STree.node 6 [(1, STree.node 3 []), (3, STree.node 5 [(1, STree.node 7 []), (7, STree.node 1
  []), (8, STree.node 1 [])]), (5, STree.node 3 []), (7, STree.node 3 []), (8, STree.node 3
  [])]), (3, STree.node 5 [(1, STree.node 7 [(2, STree.node 6 []), (6, STree.node 2 []), (8,
  STree.node 2 [])]), (2, STree.node 6 [(1, STree.node 7 []), (7, STree.node 1 []), (8,
  STree.node 1 [])]), (6, STree.node 2 [(1, STree.node 8 []), (7, STree.node 1 []), (8,
  STree.node 1 [])]), (7, STree.node 1 [(2, STree.node 6 []), (6, STree.node 2 []), (8,
  STree.node 2 [])]), (8, STree.node 1 [(2, STree.node 6 []), (6, STree.node 2 []), (7,
  STree.node 2 [])])]), (5, STree.node 3 [(1, STree.node 6 []), (2, STree.node 6 []), (6,
  STree.node 2 [(1, STree.node 7 []), (7, STree.node 1 []), (8, STree.node 1 [])]), (7,
  STree.node 1 [(2, STree.node 6 []), (6, STree.node 2 []), (8, STree.node 2 [])]), (8,
  STree.node 2 [(1, STree.node 6 []), (6, STree.node 1 []), (7, STree.node 1 [])])]), (6,
  STree.node 2 [(1, STree.node 7 [(3, STree.node 5 []), (5, STree.node 3 []), (8, STree.node 3
  [])]), (3, STree.node 1 []), (5, STree.node 1 []), (7, STree.node 1 []), (8, STree.node 1
  [])]), (7, STree.node 1 [(2, STree.node 6 [(3, STree.node 5 []), (5, STree.node 3 []), (8,
  STree.node 3 [])]), (3, STree.node 2 []), (5, STree.node 2 []), (6, STree.node 2 []), (8,
  STree.node 2 [])]), (8, STree.node 2 [(1, STree.node 7 [(3, STree.node 5 []), (5, STree.node
  3 []), (6, STree.node 3 [])]), (3, STree.node 1 []), (5, STree.node 1 []), (6, STree.node 1
  []), (7, STree.node 1 [])])]), (5, STree.node 2 [(0, STree.node 3 [(1, STree.node 4 [(6,
  STree.node 7 []), (7, STree.node 6 []), (8, STree.node 6 [])]), (4, STree.node 8 [(1,
  STree.node 7 []), (6, STree.node 1 []), (7, STree.node 1 [])]), (6, STree.node 4 [(1,
  STree.node 7 []), (7, STree.node 8 []), (8, STree.node 7 [])]), (7, STree.node 4 [(1,
  STree.node 6 []), (6, STree.node 8 []), (8, STree.node 6 [])]), (8, STree.node 4 [(1,
  STree.node 6 []), (6, STree.node 7 []), (7, STree.node 6 [])])]), (1, STree.node 3 [(0,
  STree.node 4 [(6, STree.node 7 []), (7, STree.node 6 []), (8, STree.node 6 [])]), (4,
  STree.node 7 [(0, STree.node 8 []), (6, STree.node 0 []), (8, STree.node 0 [])]), (6,
  STree.node 4 [(0, STree.node 7 []), (7, STree.node 8 []), (8, STree.node 7 [])]), (7,
  STree.node 4 [(0, STree.node 6 []), (6, STree.node 8 []), (8, STree.node 6 [])]), (8,
  STree.node 6 [(0, STree.node 4 []), (4, STree.node 0 []), (7, STree.node 0 [])])]), (3,
  STree.node 4 [(0, STree.node 6 []), (1, STree.node 0 [(6, STree.node 8 []), (7, STree.node 6
  []), (8, STree.node 6 [])]), (6, STree.node 0 [(1, STree.node 8 []), (7, STree.node 1 []),
  (8, STree.node 1 [])]), (7, STree.node 0 [(1, STree.node 6 []), (6, STree.node 1 []), (8,
  STree.node 1 [])]), (8, STree.node 0 [(1, STree.node 6 []), (6, STree.node 1 []), (7,
  STree.node 1 [])])]), (4, STree.node 3 [(0, STree.node 8 [(1, STree.node 7 []), (6,
  STree.node 1 []), (7, STree.node 1 [])]), (1, STree.node 7 [(0, STree.node 8 []), (6,
  STree.node 0 []), (8, STree.node 0 [])]), (6, STree.node 0 [(1, STree.node 7 []), (7,
  STree.node 1 []), (8, STree.node 1 [])]), (7, STree.node 1 [(0, STree.node 8 []), (6,
  STree.node 0 []), (8, STree.node 0 [])]), (8, STree.node 0 [(1, STree.node 6 []), (6,
  STree.node 1 []), (7, STree.node 1 [])])]), (6, STree.node 0 [(1, STree.node 4 [(3,
  STree.node 8 []), (7, STree.node 8 []), (8, STree.node 7 [])]), (3, STree.node 1 []), (4,
  STree.node 1 []), (7, STree.node 1 []), (8, STree.node 1 [])]), (7, STree.node 0 [(1,
  STree.node 4 [(3, STree.node 6 []), (6, STree.node 8 []), (8, STree.node 6 [])]), (3,
  STree.node 1 []), (4, STree.node 1 []), (6, STree.node 1 []), (8, STree.node 1 [])]), (8,
  STree.node 0 [(1, STree.node 6 [(3, STree.node 4 []), (4, STree.node 3 []), (7, STree.node 3
  [])]), (3, STree.node 1 []), (4, STree.node 1 []), (6, STree.node 1 []), (7, STree.node 1
  [])])]), (6, STree.node 4 [(0, STree.node 3 [(1, STree.node 5 []), (2, STree.node 1 [(5,
  STree.node 7 []), (7, STree.node 5 []), (8, STree.node 5 [])]), (5, STree.node 1 [(2,
  STree.node 7 []), (7, STree.node 8 []), (8, STree.node 7 [])]), (7, STree.node 5 []), (8,
  STree.node 5 [])]), (1, STree.node 0 [(2, STree.node 3 [(5, STree.node 8 []), (7, STree.node
  5 []), (8, STree.node 5 [])]), (3, STree.node 8 []), (5, STree.node 8 []), (7, STree.node 8
  []), (8, STree.node 7 [(2, STree.node 5 []), (3, STree.node 2 []), (5, STree.node 2 [])])]),
  (2, STree.node 1 [(0, STree.node 3 [(5, STree.node 7 []), (7, STree.node 5 []), (8,
  STree.node 5 [])]), (3, STree.node 0 [(5, STree.node 7 []), (7, STree.node 8 []), (8,
  STree.node 7 [])]), (5, STree.node 7 []), (7, STree.node 8 [(0, STree.node 3 []), (3,
  STree.node 0 []), (5, STree.node 0 [])]), (8, STree.node 7 [])]), (3, STree.node 0 [(1,
  STree.node 8 []), (2, STree.node 1 [(5, STree.node 7 []), (7, STree.node 8 []), (8,
  STree.node 7 [])]), (5, STree.node 1 [(2, STree.node 7 []), (7, STree.node 2 []), (8,
  STree.node 2 [])]), (7, STree.node 8 []), (8, STree.node 7 [(1, STree.node 2 []), (2,
  STree.node 1 []), (5, STree.node 1 [])])]), (5, STree.node 1 [(0, STree.node 7 []), (2,
  STree.node 7 []), (3, STree.node 0 [(2, STree.node 7 []), (7, STree.node 2 []), (8,
  STree.node 2 [])]), (7, STree.node 8 [(0, STree.node 3 []), (2, STree.node 0 []), (3,
  STree.node 0 [])]), (8, STree.node 7 [])]), (7, STree.node 8 [(0, STree.node 3 [(1,
  STree.node 5 []), (2, STree.node 5 []), (5, STree.node 1 [])]), (1, STree.node 0 []), (2,
  STree.node 0 []), (3, STree.node 0 []), (5, STree.node 0 [])]), (8, STree.node 7 [(0,
  STree.node 1 []), (1, STree.node 0 [(2, STree.node 5 []), (3, STree.node 2 []), (5,
  STree.node 2 [])]), (2, STree.node 1 []), (3, STree.node 1 []), (5, STree.node 1 [])])]), (7,
  STree.node 1 [(0, STree.node 6 [(2, STree.node 4 [(3, STree.node 5 []), (5, STree.node 8 []),
  (8, STree.node 5 [])]), (3, STree.node 4 [(2, STree.node 5 []), (5, STree.node 2 []), (8,
  STree.node 2 [])]), (4, STree.node 8 [(2, STree.node 3 []), (3, STree.node 5 []), (5,
  STree.node 3 [])]), (5, STree.node 4 [(2, STree.node 8 []), (3, STree.node 2 []), (8,
  STree.node 2 [])]), (8, STree.node 4 [(2, STree.node 5 []), (3, STree.node 2 []), (5,
  STree.node 2 [])])]), (2, STree.node 6 [(0, STree.node 4 [(3, STree.node 5 []), (5,
  STree.node 8 []), (8, STree.node 5 [])]), (3, STree.node 4 [(0, STree.node 5 []), (5,
  STree.node 8 []), (8, STree.node 5 [])]), (4, STree.node 0 [(3, STree.node 5 []), (5,
  STree.node 3 []), (8, STree.node 3 [])]), (5, STree.node 8 [(0, STree.node 3 []), (3,
  STree.node 4 []), (4, STree.node 3 [])]), (8, STree.node 5 [(0, STree.node 4 []), (3,
  STree.node 0 []), (4, STree.node 0 [])])]), (3, STree.node 6 [(0, STree.node 4 [(2,
  STree.node 5 []), (5, STree.node 2 []), (8, STree.node 2 [])]), (2, STree.node 4 [(0,
  STree.node 5 []), (5, STree.node 8 []), (8, STree.node 5 [])]), (4, STree.node 5 [(0,
  STree.node 8 []), (2, STree.node 0 []), (8, STree.node 0 [])]), (5, STree.node 4 [(0,
  STree.node 2 []), (2, STree.node 8 []), (8, STree.node 2 [])]), (8, STree.node 2 [(0,
  STree.node 4 []), (4, STree.node 0 []), (5, STree.node 0 [])])]), (4, STree.node 0 [(2,
  STree.node 6 [(3, STree.node 5 []), (5, STree.node 3 []), (8, STree.node 3 [])]), (3,
  STree.node 2 []), (5, STree.node 2 []), (6, STree.node 2 []), (8, STree.node 2 [])]), (5,
  STree.node 6 [(0, STree.node 4 [(2, STree.node 8 []), (3, STree.node 2 []), (8, STree.node 2
  [])]), (2, STree.node 8 [(0, STree.node 3 []), (3, STree.node 4 []), (4, STree.node 3 [])]),
  (3, STree.node 4 [(0, STree.node 2 []), (2, STree.node 8 []), (8, STree.node 2 [])]), (4,
  STree.node 3 [(0, STree.node 8 []), (2, STree.node 0 []), (8, STree.node 0 [])]), (8,
  STree.node 2 [(0, STree.node 4 []), (3, STree.node 0 []), (4, STree.node 0 [])])]), (6,
  STree.node 8 [(0, STree.node 3 [(2, STree.node 4 []), (4, STree.node 2 []), (5, STree.node 2
  [])]), (2, STree.node 4 [(0, STree.node 3 []), (3, STree.node 0 []), (5, STree.node 0 [])]),
  (3, STree.node 0 [(2, STree.node 4 []), (4, STree.node 2 []), (5, STree.node 2 [])]), (4,
  STree.node 2 [(0, STree.node 5 []), (3, STree.node 0 []), (5, STree.node 0 [])]), (5,
  STree.node 0 [(2, STree.node 4 []), (3, STree.node 2 []), (4, STree.node 2 [])])]), (8,
  STree.node 6 [(0, STree.node 4 [(2, STree.node 5 []), (3, STree.node 2 []), (5, STree.node 2
  [])]), (2, STree.node 5 [(0, STree.node 4 []), (3, STree.node 0 []), (4, STree.node 0 [])]),
  (3, STree.node 2 [(0, STree.node 4 []), (4, STree.node 0 []), (5, STree.node 0 [])]), (4,
  STree.node 0 [(2, STree.node 3 []), (3, STree.node 2 []), (5, STree.node 2 [])]), (5,
  STree.node 2 [(0, STree.node 4 []), (3, STree.node 0 []), (4, STree.node 0 [])])])]), (8,
  STree.node 4 [(0, STree.node 1 [(2, STree.node 5 [(3, STree.node 7 []), (6, STree.node 3 []),
  (7, STree.node 3 [])]), (3, STree.node 6 [(2, STree.node 7 []), (5, STree.node 2 []), (7,
  STree.node 2 [])]), (5, STree.node 2 [(3, STree.node 6 []), (6, STree.node 7 []), (7,
  STree.node 6 [])]), (6, STree.node 7 []), (7, STree.node 6 [(2, STree.node 5 []), (3,
  STree.node 2 []), (5, STree.node 2 [])])]), (1, STree.node 0 [(2, STree.node 5 [(3,
  STree.node 6 []), (6, STree.node 3 []), (7, STree.node 3 [])]), (3, STree.node 2 [(5,
  STree.node 6 []), (6, STree.node 7 []), (7, STree.node 6 [])]), (5, STree.node 2 [(3,
  STree.node 6 []), (6, STree.node 7 []), (7, STree.node 6 [])]), (6, STree.node 7 [(2,
  STree.node 5 []), (3, STree.node 2 []), (5, STree.node 2 [])]), (7, STree.node 6 [(2,
  STree.node 3 []), (3, STree.node 2 []), (5, STree.node 2 [])])]), (2, STree.node 5 [(0,
  STree.node 1 [(3, STree.node 7 []), (6, STree.node 3 []), (7, STree.node 3 [])]), (1,
  STree.node 3 []), (3, STree.node 0 [(1, STree.node 6 []), (6, STree.node 7 []), (7,
  STree.node 6 [])]), (6, STree.node 3 []), (7, STree.node 3 [])]), (3, STree.node 0 [(1,
  STree.node 2 [(5, STree.node 6 []), (6, STree.node 7 []), (7, STree.node 6 [])]), (2,
  STree.node 5 [(1, STree.node 6 []), (6, STree.node 7 []), (7, STree.node 6 [])]), (5,
  STree.node 2 [(1, STree.node 6 []), (6, STree.node 1 []), (7, STree.node 1 [])]), (6,
  STree.node 7 [(1, STree.node 2 []), (2, STree.node 1 []), (5, STree.node 1 [])]), (7,
  STree.node 6 [(1, STree.node 2 []), (2, STree.node 5 []), (5, STree.node 2 [])])]), (5,
  STree.node 2 [(0, STree.node 1 [(3, STree.node 6 []), (6, STree.node 7 []), (7, STree.node 6
  [])]), (1, STree.node 6 []), (3, STree.node 0 [(1, STree.node 6 []), (6, STree.node 1 []),
  (7, STree.node 1 [])]), (6, STree.node 7 [(0, STree.node 1 []), (1, STree.node 0 []), (3,
  STree.node 1 [])]), (7, STree.node 6 [])]), (6, STree.node 7 [(0, STree.node 1 []), (1,
  STree.node 0 [(2, STree.node 5 []), (3, STree.node 2 []), (5, STree.node 2 [])]), (2,
  STree.node 1 []), (3, STree.node 1 []), (5, STree.node 1 [])]), (7, STree.node 6 [(0,
  STree.node 2 []), (1, STree.node 0 [(2, STree.node 3 []), (3, STree.node 2 []), (5,
  STree.node 2 [])]), (2, STree.node 5 [(0, STree.node 3 []), (1, STree.node 3 []), (3,
  STree.node 0 [])]), (3, STree.node 2 []), (5, STree.node 2 [])])])]

theorem xCert_valid : checkTree 9 Player.X initialBoard xCert = true := by decide

set_option maxHeartbeats 4000000 in
theorem oCert_valid : checkOpp 9 Player.O initialBoard oCert = true := by decide

/-- The game value of the empty board: with best play the game is a draw. -/
theorem rootValue : minimax initialBoard true Player.X = 0 := by
  have hx : 0 ≤ minimax initialBoard true Player.X :=
    checkTree_sound 9 Player.X initialBoard xCert (by decide) rfl (by decide) xCert_valid
  have ho : 0 ≤ minimax initialBoard false Player.O :=
    checkOpp_sound 9 Player.O initialBoard oCert (by decide) (by decide) (by decide)
      (by decide) oCert_valid
  have hneg : minimax initialBoard false Player.O =
      -(minimax initialBoard true Player.X) := by
    have := minimax_neg initialBoard false Player.O Player.X (by decide) (by decide)
      (by decide)
    simpa using this
  omega

/-! ## Characterisation of the findBestMove accumulator loop -/

/-- The score `findBestMove` assigns to a candidate move (source: `result`
in the loop body). -/
def moveScore (b : Board) (m : Nat) : Int :=
  minimax (b.applyMoveL m) false b.currentPlayer

/-- One step of the `findBestMove` accumulator loop. -/
def bestStep (b : Board) (acc : Int × Option Nat) (m : Nat) : Int × Option Nat :=
  let result := minimax (b.applyMoveL m) false b.currentPlayer
  if result > acc.1 then (result, some m) else acc

theorem findBestMoveOn_eq_foldl (l : List Nat) (b : Board) :
    findBestMoveOn l b = (l.foldl (bestStep b) ((-2 : Int), none)).2 := rfl

theorem bestStep_gt (b : Board) (r : Int) (mo : Option Nat) (m : Nat)
    (h : r < moveScore b m) : bestStep b (r, mo) m = (moveScore b m, some m) := by
  unfold bestStep moveScore at *
  simp only [gt_iff_lt]
  rw [if_pos h]

theorem bestStep_le (b : Board) (r : Int) (mo : Option Nat) (m : Nat)
    (h : moveScore b m ≤ r) : bestStep b (r, mo) m = (r, mo) := by
  unfold bestStep moveScore at *
  simp only [gt_iff_lt]
  rw [if_neg (by omega)]

theorem bestFold_char (b : Board) :
    ∀ (l : List Nat) (r : Int) (mo : Option Nat),
      (l.foldl (bestStep b) (r, mo) = (r, mo) ∧ ∀ x ∈ l, moveScore b x ≤ r) ∨
      (∃ m l1 l2, l.foldl (bestStep b) (r, mo) = (moveScore b m, some m) ∧
        l = l1 ++ m :: l2 ∧ r < moveScore b m ∧
        (∀ x ∈ l1, moveScore b x < moveScore b m) ∧
        (∀ x ∈ l2, moveScore b x ≤ moveScore b m)) := by
  intro l
  induction l with
  | nil =>
    intro r mo
    exact Or.inl ⟨rfl, by simp⟩
  | cons x xs ih =>
    intro r mo
    rcases lt_or_ge r (moveScore b x) with hcmp | hcmp
    · rw [List.foldl_cons, bestStep_gt b r mo x hcmp]
      rcases ih (moveScore b x) (some x) with ⟨heq, hall⟩ | ⟨m, l1, l2, heq, hdec, hr, h1, h2⟩
      · refine Or.inr ⟨x, [], xs, heq, by simp, hcmp, by simp, hall⟩
      · refine Or.inr ⟨m, x :: l1, l2, heq, by rw [hdec, List.cons_append],
          lt_trans hcmp hr, ?_, h2⟩
        intro y hy
        rcases List.mem_cons.1 hy with h | h
        · subst h; exact hr
        · exact h1 y h
    · rw [List.foldl_cons, bestStep_le b r mo x hcmp]
      rcases ih r mo with ⟨heq, hall⟩ | ⟨m, l1, l2, heq, hdec, hr, h1, h2⟩
      · refine Or.inl ⟨heq, ?_⟩
        intro y hy
        rcases List.mem_cons.1 hy with h | h
        · subst h; exact hcmp
        · exact hall y h
      · refine Or.inr ⟨m, x :: l1, l2, heq, by rw [hdec, List.cons_append], hr, ?_, h2⟩
        intro y hy
        rcases List.mem_cons.1 hy with h | h
        · subst h; exact lt_of_le_of_lt hcmp hr
        · exact h1 y h

theorem moveScore_ge (b : Board) (m : Nat) : -1 ≤ moveScore b m :=
  (minimax_bounds (b.applyMoveL m) false b.currentPlayer).1

theorem findBestMoveOn_char (l : List Nat) (b : Board) (hlne : l ≠ []) :
    ∃ m, findBestMoveOn l b = some m ∧ m ∈ l ∧
      (∀ x ∈ l, moveScore b x ≤ moveScore b m) ∧
      ∃ l1 l2, l = l1 ++ m :: l2 ∧ ∀ x ∈ l1, moveScore b x < moveScore b m := by
  rcases bestFold_char b l (-2) none with ⟨_, hall⟩ | ⟨m, l1, l2, heq, hdec, _, h1, h2⟩
  · obtain ⟨x, hx⟩ := List.exists_mem_of_ne_nil l hlne
    have := hall x hx
    have := moveScore_ge b x
    omega
  · refine ⟨m, ?_, ?_, ?_, l1, l2, hdec, h1⟩
    · rw [findBestMoveOn_eq_foldl, heq]
    · rw [hdec]
      exact List.mem_append_right l1 (List.mem_cons_self m l2)
    · intro x hx
      rw [hdec] at hx
      rcases List.mem_append.1 hx with h | h
      · exact le_of_lt (h1 x h)
      · rcases List.mem_cons.1 h with h | h
        · subst h; exact le_refl _
        · exact h2 x h

/-! ## Runs of the randomised search

`getLegalMoves` shuffles the legal moves, so one execution of the source
`minimax` is described by a relation: at every node some permutation of the
legal moves is drawn, the children are evaluated recursively (each by its
own run), and the results are folded exactly as in the source loops. -/

theorem foldl_max_perm {l1 l2 : List Int} (h : l1.Perm l2) (a : Int) :
    l1.foldl max a = l2.foldl max a :=
  h.foldl_eq' (fun x _ y _ z => by
    rw [max_assoc, max_comm x y, ← max_assoc]) a

theorem foldl_min_perm {l1 l2 : List Int} (h : l1.Perm l2) (a : Int) :
    l1.foldl min a = l2.foldl min a :=
  h.foldl_eq' (fun x _ y _ z => by
    rw [min_assoc, min_comm x y, ← min_assoc]) a

theorem zip_snd_eq_map :
    ∀ (l : List Nat) (vs : List Int) (g : Nat → Int), vs.length = l.length →
      (∀ mv ∈ l.zip vs, mv.2 = g mv.1) → vs = l.map g := by
  intro l
  induction l with
  | nil =>
    intro vs g hlen _
    simpa using List.length_eq_zero.1 (by simpa using hlen)
  | cons x xs ih =>
    intro vs g hlen hall
    cases vs with
    | nil => simp at hlen
    | cons v vtl =>
      rw [List.map_cons]
      have h1 : v = g x := hall (x, v) (by simp [List.zip_cons_cons])
      have h2 : vtl = xs.map g := by
        apply ih vtl g (by simpa using hlen)
        intro mv hmv
        exact hall mv (by simp [List.zip_cons_cons, hmv])
      rw [h1, h2]

/-- One possible run of the source `minimax` on a board: `l` is the
shuffled order of the legal moves drawn at this node and `vs` the values
returned by the (themselves randomised) recursive calls, folded through the
source's best/worst accumulator loop. -/
inductive MinimaxRun : Board → Bool → Player → Int → Prop where
  | leaf (b : Board) (mx : Bool) (p : Player)
      (ht : (b.isWin || b.isDraw) = true) : MinimaxRun b mx p (b.evaluate p)
  | maxNode (b : Board) (p : Player) (l : List Nat) (vs : List Int)
      (ht : (b.isWin || b.isDraw) = false) (hperm : l.Perm b.getLegalMoves)
      (hlen : vs.length = l.length)
      (hrec : ∀ mv ∈ l.zip vs, MinimaxRun (b.applyMoveL mv.1) false p mv.2) :
      MinimaxRun b true p (vs.foldl max (-2))
  | minNode (b : Board) (p : Player) (l : List Nat) (vs : List Int)
      (ht : (b.isWin || b.isDraw) = false) (hperm : l.Perm b.getLegalMoves)
      (hlen : vs.length = l.length)
      (hrec : ∀ mv ∈ l.zip vs, MinimaxRun (b.applyMoveL mv.1) true p mv.2) :
      MinimaxRun b false p (vs.foldl min 2)

theorem minimaxRun_eq_minimax :
    ∀ (b : Board) (mx : Bool) (p : Player) (v : Int),
      MinimaxRun b mx p v → v = minimax b mx p := by
  intro b mx p v h
  induction h with
  | leaf b mx p ht => rw [minimax_unfold, if_pos ht]
  | maxNode b p l vs ht hperm hlen hrec ih =>
    have hvs : vs = l.map (fun m => minimax (b.applyMoveL m) false p) :=
      zip_snd_eq_map l vs _ hlen ih
    rw [minimax_unfold, if_neg (by simp [ht]), if_pos rfl, hvs]
    exact foldl_max_perm (hperm.map _) (-2)
  | minNode b p l vs ht hperm hlen hrec ih =>
    have hvs : vs = l.map (fun m => minimax (b.applyMoveL m) true p) :=
      zip_snd_eq_map l vs _ hlen ih
    rw [minimax_unfold, if_neg (by simp [ht]), if_neg (by simp), hvs]
    exact foldl_min_perm (hperm.map _) 2

/-! ## Self-play with findBestMove on both sides -/

/-- One half-move of self-play: a shuffled order `l` of the legal moves is
drawn, `findBestMove` (run on that order) picks `m`, and `m` is applied. -/
def OptimalStep (b b2 : Board) : Prop :=
  ∃ (l : List Nat) (m : Nat), l.Perm b.getLegalMoves ∧
    findBestMoveOn l b = some m ∧ b2 = b.applyMoveL m

/-- Board states reached after `n` half-moves of self-play from the empty
board, with `findBestMove` (under any shuffle) choosing every move. -/
inductive SelfPlay : Nat → Board → Prop where
  | init : SelfPlay 0 initialBoard
  | step (n : Nat) (b b2 : Board) : SelfPlay n b → (b.isWin || b.isDraw) = false →
      OptimalStep b b2 → SelfPlay (n+1) b2

theorem selfPlay_invariant :
    ∀ (n : Nat) (b : Board), SelfPlay n b →
      minimax b true b.currentPlayer = 0 ∧ b.getLegalMoves.length = 9 - n ∧ n ≤ 9 := by
  intro n b h
  induction h with
  | init => exact ⟨rootValue, by decide, by omega⟩
  | step n b b2 hsp ht hopt ih =>
    obtain ⟨hval, hlen, hn⟩ := ih
    obtain ⟨l, m, hperm, hfb, rfl⟩ := hopt
    have hlegal_ne : b.getLegalMoves ≠ [] := b.legal_ne_nil_of_nonterminal ht
    have hlne : l ≠ [] := by
      intro h0
      subst h0
      exact hlegal_ne (List.Perm.nil_eq hperm).symm
    obtain ⟨m2, hfb2, hmem, hub, _⟩ := findBestMoveOn_char l b hlne
    rw [hfb] at hfb2
    obtain rfl : m = m2 := Option.some.inj hfb2
    have hmemLegal : m ∈ b.getLegalMoves := hperm.subset hmem
    have hmax : minimax b true b.currentPlayer = moveScore b m := by
      rw [minimax_unfold, if_neg (by simp [ht]), if_pos rfl]
      apply le_antisymm
      · rcases foldl_max_mem
            (b.getLegalMoves.map (fun x => minimax (b.applyMoveL x) false b.currentPlayer))
            (-2) with hcase | hcase
        · rw [hcase]
          have := moveScore_ge b m
          omega
        · obtain ⟨x, hx, hxe⟩ := List.mem_map.1 hcase
          rw [← hxe]
          exact hub x (hperm.mem_iff.2 hx)
      · exact le_foldl_max _ (-2) _ (List.mem_map_of_mem _ hmemLegal)
    have hscore : moveScore b m = 0 := by rw [← hmax, hval]
    have hcurne : (b.applyMoveL m).currentPlayer ≠ b.currentPlayer := by
      rw [Board.applyMoveL_currentPlayer]
      exact b.oppositePlayer_ne_self
    refine ⟨?_, ?_, ?_⟩
    · have hneg := minimax_neg (b.applyMoveL m) false b.currentPlayer
        (b.applyMoveL m).currentPlayer b.hcur (b.applyMoveL m).hcur
        (fun hpq => hcurne hpq.symm)
      have : moveScore b m = -(minimax (b.applyMoveL m) true (b.applyMoveL m).currentPlayer) := by
        rw [moveScore, hneg]
        rfl
      rw [hscore] at this
      omega
    · rw [Board.length_getLegalMoves_applyMoveL b m hmemLegal, hlen]
      omega
    · have hpos : 0 < b.getLegalMoves.length := List.length_pos.2 hlegal_ne
      omega

/-! ## Concrete boards used by witnesses -/

/-- X has just completed the top row; O is to move. -/
def wonBoard : Board :=
  ⟨[Player.X, Player.X, Player.X, Player.O, Player.O, Player.NONE, Player.NONE,
    Player.NONE, Player.NONE], Player.O, by decide, by decide⟩

/-- A full board with no winning line. -/
def drawnBoard : Board :=
  ⟨[Player.X, Player.O, Player.X, Player.X, Player.O, Player.O, Player.O,
    Player.X, Player.X], Player.O, by decide, by decide⟩

/-- A position with exactly two legal moves (cells 0 and 1), O to move. -/
def twoEmptyBoard : Board :=
  ⟨[Player.NONE, Player.NONE, Player.X, Player.X, Player.O, Player.O, Player.O,
    Player.X, Player.X], Player.O, by decide, by decide⟩

theorem evaluate_win_self (b : Board) (p : Player) (hw : b.isWin = true)
    (hc : b.currentPlayer = p) : b.evaluate p = -1 := by
  unfold Board.evaluate
  rw [if_pos ⟨hw, hc⟩]

theorem isDraw_isWin_false (b : Board) (hd : b.isDraw = true) : b.isWin = false := by
  rcases hw : b.isWin with _ | _
  · rfl
  · rw [Board.isDraw, hw] at hd
    simp at hd

/-! ## The claims -/

/-- C1: on every terminal board (win or draw) and for every perspective
player `p`, `evaluate p` returns 0 on a draw; on a win it attributes the
win to the player who is not the board's current to-move player (that is,
`oppositePlayer`), returning 1 exactly when that winner is `p` and -1
otherwise.  The perspective player ranges over the two actual players. -/
theorem evaluate_win_attribution (b : Board) (p : Player) (hp : p ≠ Player.NONE)
    (_hterm : (b.isWin || b.isDraw) = true) :
    (b.isDraw = true → b.evaluate p = 0) ∧
    (b.isWin = true → b.evaluate p = if b.oppositePlayer = p then 1 else -1) := by
  constructor
  · intro hd
    exact evaluate_draw b p (isDraw_isWin_false b hd)
  · intro hw
    by_cases hop : b.oppositePlayer = p
    · rw [if_pos hop]
      apply evaluate_win_opponent b p hw
      intro hc
      exact b.oppositePlayer_ne_self (hop.trans hc.symm)
    · rw [if_neg hop]
      apply evaluate_win_self b p hw
      by_contra hc
      exact hop (b.oppositePlayer_eq p hp hc)

theorem evaluate_win_attribution_witness : wonBoard.evaluate Player.X = 1 := by
  have h := (evaluate_win_attribution wonBoard Player.X (by decide) (by decide)).2
    (by decide)
  rw [h]
  decide

/-- C10: `evaluate` is a total function (no error paths exist in the
embedding, matching the source, which has none), and whenever `isWin()` is
false it returns 0 — even on non-terminal boards that are neither a win nor
a draw. -/
theorem evaluate_total_zero (b : Board) (p : Player) (hw : b.isWin = false) :
    b.evaluate p = 0 := by
  unfold Board.evaluate
  rw [if_neg (by simp [hw]), if_neg (by simp [hw])]

theorem evaluate_total_zero_witness : initialBoard.evaluate Player.X = 0 :=
  evaluate_total_zero initialBoard Player.X (by decide)

/-- C7: `isWin()` is true exactly when one of the eight lines of
`winTriples` (the three rows, three columns and two diagonals) has all
three cells equal and not Empty. -/
theorem isWin_iff_line (b : Board) :
    b.isWin = true ↔ ∃ t ∈ winTriples,
      b.cell t.1 = b.cell t.2.1 ∧ b.cell t.2.1 = b.cell t.2.2 ∧
      b.cell t.2.2 ≠ Player.NONE := by
  unfold Board.isWin
  rw [List.any_eq_true]
  constructor
  · rintro ⟨t, ht, hb⟩
    simp only [Bool.and_eq_true, beq_iff_eq, bne_iff_ne] at hb
    exact ⟨t, ht, hb.1.1, hb.1.2, hb.2⟩
  · rintro ⟨t, ht, h1, h2, h3⟩
    refine ⟨t, ht, ?_⟩
    simp only [Bool.and_eq_true, beq_iff_eq, bne_iff_ne]
    exact ⟨⟨h1, h2⟩, h3⟩

/-- Membership in the legal-move list, cast to integers, as used by
`getNewBoardWithMove`. -/
theorem getNewBoardWithMove_mem (b : Board) (square : Int) :
    square ∈ b.getLegalMoves.map Int.ofNat ↔
      0 ≤ square ∧ square ≤ 8 ∧ b.cell square.toNat = Player.NONE := by
  simp only [List.mem_map, Board.mem_getLegalMoves, Int.ofNat_eq_natCast]
  constructor
  · rintro ⟨n, ⟨hn9, hcell⟩, rfl⟩
    refine ⟨by exact_mod_cast Nat.zero_le n, by exact_mod_cast (by omega : n ≤ 8), ?_⟩
    simpa using hcell
  · rintro ⟨h0, h8, hcell⟩
    exact ⟨square.toNat, ⟨by omega, hcell⟩, by exact_mod_cast Int.toNat_of_nonneg h0⟩

/-- C5: `applyMove` (source `getNewBoardWithMove`) fails with the
InvalidMove error (embedded as `none`) exactly when the integer index is
out of the range [0, 8] or the indexed cell is not Empty; otherwise it
succeeds. -/
theorem getNewBoardWithMove_error_iff (b : Board) (square : Int) :
    b.getNewBoardWithMove square = none ↔
      (square < 0 ∨ 8 < square ∨ b.cell square.toNat ≠ Player.NONE) := by
  unfold Board.getNewBoardWithMove
  by_cases hmem : square ∈ b.getLegalMoves.map Int.ofNat
  · rw [if_pos hmem]
    obtain ⟨h0, h8, hcell⟩ := (getNewBoardWithMove_mem b square).1 hmem
    apply iff_of_false (by simp)
    push_neg
    exact ⟨by omega, by omega, hcell⟩
  · rw [if_neg hmem]
    apply iff_of_true rfl
    by_contra hR
    push_neg at hR
    exact hmem ((getNewBoardWithMove_mem b square).2 ⟨by omega, by omega, hR.2.2⟩)

/-- C6: a successful `applyMove` returns a board that agrees with the
receiver everywhere except the played cell, which now holds the mover,
with the turn passed to the opposite player; the receiver itself is a pure
value in this embedding (the source deep-copies it), so it is unchanged on
both the success and the error path by construction. -/
theorem getNewBoardWithMove_frame (b : Board) (square : Int) (b2 : Board)
    (h : b.getNewBoardWithMove square = some b2) :
    b2.currentPlayer = b.oppositePlayer ∧
    0 ≤ square ∧ square ≤ 8 ∧ b.cell square.toNat = Player.NONE ∧
    b2.cell square.toNat = b.currentPlayer ∧
    ∀ j : Nat, j ≠ square.toNat → b2.cell j = b.cell j := by
  unfold Board.getNewBoardWithMove at h
  by_cases hmem : square ∈ b.getLegalMoves.map Int.ofNat
  · rw [if_pos hmem] at h
    obtain ⟨h0, h8, hcell⟩ := (getNewBoardWithMove_mem b square).1 hmem
    obtain rfl : b.applyMoveL square.toNat = b2 := Option.some.inj h
    have h9 : square.toNat < 9 := by omega
    refine ⟨rfl, h0, h8, hcell, ?_, ?_⟩
    · rw [Board.cell_applyMoveL b _ _ h9, if_pos rfl]
    · intro j hj
      rw [Board.cell_applyMoveL b _ _ h9, if_neg hj]
  · rw [if_neg hmem] at h
    exact absurd h (by simp)

theorem getNewBoardWithMove_frame_witness :
    (initialBoard.applyMoveL 4).currentPlayer = initialBoard.oppositePlayer ∧
    0 ≤ (4 : Int) ∧ (4 : Int) ≤ 8 ∧
    initialBoard.cell (4 : Int).toNat = Player.NONE ∧
    (initialBoard.applyMoveL 4).cell (4 : Int).toNat = initialBoard.currentPlayer ∧
    ∀ j : Nat, j ≠ (4 : Int).toNat →
      (initialBoard.applyMoveL 4).cell j = initialBoard.cell j :=
  getNewBoardWithMove_frame initialBoard 4 (initialBoard.applyMoveL 4) rfl

/-- C3: `minimax` returns `evaluate(perspectivePlayer)` on terminal boards;
otherwise it returns the maximum (when maximizing) or the minimum (when
not) over all legal moves of the value of the board after that move, with
the maximizing flag negated and the perspective player unchanged. -/
theorem minimax_recursion_spec (b : Board) (mx : Bool) (p : Player) :
    ((b.isWin || b.isDraw) = true → minimax b mx p = b.evaluate p) ∧
    ((b.isWin || b.isDraw) = false →
      minimax b mx p ∈
        b.getLegalMoves.map (fun m => minimax (b.applyMoveL m) (!mx) p) ∧
      (mx = true →
        ∀ v ∈ b.getLegalMoves.map (fun m => minimax (b.applyMoveL m) false p),
          v ≤ minimax b mx p) ∧
      (mx = false →
        ∀ v ∈ b.getLegalMoves.map (fun m => minimax (b.applyMoveL m) true p),
          minimax b mx p ≤ v)) := by
  constructor
  · intro ht
    rw [minimax_unfold, if_pos ht]
  · intro ht
    obtain ⟨m0, hm0⟩ := List.exists_mem_of_ne_nil _ (b.legal_ne_nil_of_nonterminal ht)
    cases mx with
    | true =>
      simp only [Bool.not_true]
      rw [minimax_unfold, if_neg (by simp [ht]), if_pos rfl]
      refine ⟨?_, ?_, ?_⟩
      · rcases foldl_max_mem
            (b.getLegalMoves.map (fun m => minimax (b.applyMoveL m) false p)) (-2)
            with hcase | hcase
        · exfalso
          have hel := le_foldl_max
            (b.getLegalMoves.map (fun m => minimax (b.applyMoveL m) false p)) (-2) _
            (List.mem_map_of_mem (fun m => minimax (b.applyMoveL m) false p) hm0)
          have hbd := (minimax_bounds (b.applyMoveL m0) false p).1
          rw [hcase] at hel
          dsimp only at hel
          omega
        · exact hcase
      · intro _ v hv
        exact le_foldl_max _ (-2) v hv
      · intro hmx
        simp at hmx
    | false =>
      simp only [Bool.not_false]
      rw [minimax_unfold, if_neg (by simp [ht]), if_neg (by simp)]
      refine ⟨?_, ?_, ?_⟩
      · rcases foldl_min_mem
            (b.getLegalMoves.map (fun m => minimax (b.applyMoveL m) true p)) 2
            with hcase | hcase
        · exfalso
          have hel := foldl_min_le
            (b.getLegalMoves.map (fun m => minimax (b.applyMoveL m) true p)) 2 _
            (List.mem_map_of_mem (fun m => minimax (b.applyMoveL m) true p) hm0)
          have hbd := (minimax_bounds (b.applyMoveL m0) true p).2
          rw [hcase] at hel
          dsimp only at hel
          omega
        · exact hcase
      · intro hmx
        simp at hmx
      · intro _ v hv
        exact foldl_min_le _ 2 v hv

theorem minimax_recursion_spec_witness :
    minimax wonBoard true Player.X = wonBoard.evaluate Player.X :=
  (minimax_recursion_spec wonBoard true Player.X).1 (by decide)

/-- C4: on a non-terminal board, `findBestMove` run on any shuffled order
`l` of the legal moves returns the first move of `l` whose minimax score
(child board, `maximizing = false`, perspective the board's current mover)
is maximal among all legal moves; ties keep the earlier move. -/
theorem findBestMove_first_max (b : Board) (l : List Nat)
    (hperm : l.Perm b.getLegalMoves) (ht : (b.isWin || b.isDraw) = false) :
    ∃ m, findBestMoveOn l b = some m ∧ m ∈ b.getLegalMoves ∧
      (∀ x ∈ b.getLegalMoves,
        minimax (b.applyMoveL x) false b.currentPlayer ≤
          minimax (b.applyMoveL m) false b.currentPlayer) ∧
      ∃ l1 l2, l = l1 ++ m :: l2 ∧ ∀ x ∈ l1,
        minimax (b.applyMoveL x) false b.currentPlayer <
          minimax (b.applyMoveL m) false b.currentPlayer := by
  have hlne : l ≠ [] := by
    intro h0
    subst h0
    exact b.legal_ne_nil_of_nonterminal ht (List.Perm.nil_eq hperm).symm
  obtain ⟨m, hfb, hmem, hub, l1, l2, hdec, hlt⟩ := findBestMoveOn_char l b hlne
  exact ⟨m, hfb, hperm.subset hmem, fun x hx => hub x (hperm.mem_iff.2 hx),
    l1, l2, hdec, hlt⟩

theorem findBestMove_first_max_witness :
    ∃ m, findBestMoveOn [1, 0] twoEmptyBoard = some m ∧
      m ∈ twoEmptyBoard.getLegalMoves ∧
      (∀ x ∈ twoEmptyBoard.getLegalMoves,
        minimax (twoEmptyBoard.applyMoveL x) false twoEmptyBoard.currentPlayer ≤
          minimax (twoEmptyBoard.applyMoveL m) false twoEmptyBoard.currentPlayer) ∧
      ∃ l1 l2, [1, 0] = l1 ++ m :: l2 ∧ ∀ x ∈ l1,
        minimax (twoEmptyBoard.applyMoveL x) false twoEmptyBoard.currentPlayer <
          minimax (twoEmptyBoard.applyMoveL m) false twoEmptyBoard.currentPlayer :=
  findBestMove_first_max twoEmptyBoard [1, 0] (by decide) (by decide)

/-- C8: the value computed by `minimax` does not depend on the random
shuffling of the legal-move list: any two runs of the randomised search
from the same board, flag and perspective return the same integer, namely
the value of the canonical (ascending-order) `minimax`. -/
theorem minimax_order_invariant (b : Board) (mx : Bool) (p : Player) (v1 v2 : Int)
    (h1 : MinimaxRun b mx p v1) (h2 : MinimaxRun b mx p v2) :
    v1 = v2 ∧ v1 = minimax b mx p :=
  ⟨(minimaxRun_eq_minimax b mx p v1 h1).trans
      (minimaxRun_eq_minimax b mx p v2 h2).symm,
    minimaxRun_eq_minimax b mx p v1 h1⟩

theorem minimax_order_invariant_witness :
    wonBoard.evaluate Player.X = wonBoard.evaluate Player.X ∧
    wonBoard.evaluate Player.X = minimax wonBoard true Player.X :=
  minimax_order_invariant wonBoard true Player.X (wonBoard.evaluate Player.X)
    (wonBoard.evaluate Player.X)
    (MinimaxRun.leaf wonBoard true Player.X (by decide))
    (MinimaxRun.leaf wonBoard true Player.X (by decide))

/-- Successful `getNewBoardWithMove` applications are exactly the legal
moves, and produce `applyMoveL`. -/
theorem getNewBoardWithMove_some (b : Board) (i : Int) (b2 : Board)
    (h : b.getNewBoardWithMove i = some b2) :
    i.toNat ∈ b.getLegalMoves ∧ b2 = b.applyMoveL i.toNat := by
  unfold Board.getNewBoardWithMove at h
  by_cases hmem : i ∈ b.getLegalMoves.map Int.ofNat
  · rw [if_pos hmem] at h
    obtain ⟨h0, h8, hcell⟩ := (getNewBoardWithMove_mem b i).1 hmem
    exact ⟨(b.mem_getLegalMoves _).2 ⟨by omega, hcell⟩, (Option.some.inj h).symm⟩
  · rw [if_neg hmem] at h
    exact absurd h (by simp)

/-- Board states reachable from the empty initial state by `n` successful
`getNewBoardWithMove` applications. -/
inductive ReachableN : Nat → Board → Prop where
  | init : ReachableN 0 initialBoard
  | step (n : Nat) (b : Board) (i : Int) (b2 : Board) :
      ReachableN n b → b.getNewBoardWithMove i = some b2 → ReachableN (n+1) b2

/-- C9: after `n` successful moves from the empty initial board the number
of legal moves is `9 - n`: every successful move fills exactly one
previously empty cell and no move empties a cell. -/
theorem reachable_legal_count :
    ∀ (n : Nat) (b : Board), ReachableN n b →
      b.getLegalMoves.length = 9 - n ∧ n ≤ 9 := by
  intro n b h
  induction h with
  | init => exact ⟨by decide, by omega⟩
  | step n b i b2 hr hmv ih =>
    obtain ⟨hlen, hn⟩ := ih
    obtain ⟨hmem, rfl⟩ := getNewBoardWithMove_some b i b2 hmv
    have hpos : 0 < b.getLegalMoves.length :=
      List.length_pos.2 (List.ne_nil_of_mem hmem)
    rw [Board.length_getLegalMoves_applyMoveL b _ hmem, hlen]
    refine ⟨by omega, by omega⟩

theorem reachable_legal_count_witness :
    initialBoard.getLegalMoves.length = 9 - 0 ∧ 0 ≤ 9 :=
  reachable_legal_count 0 initialBoard ReachableN.init

/-- C2: playing `findBestMove` for both sides from the empty board, for
every shuffled move order the enumeration may produce at every step: no
reached position is ever a win, every terminal position reached is a draw,
play can always continue from a non-terminal position, and the game ends
within nine moves (the legal-move count decreases to 0). -/
theorem selfPlay_always_draw (n : Nat) (b : Board) (h : SelfPlay n b) :
    b.isWin = false ∧
    ((b.isWin || b.isDraw) = true → b.isDraw = true) ∧
    ((b.isWin || b.isDraw) = false → ∃ b2, OptimalStep b b2) ∧
    b.getLegalMoves.length = 9 - n ∧ n ≤ 9 := by
  obtain ⟨hval, hlen, hn⟩ := selfPlay_invariant n b h
  have hwin : b.isWin = false := by
    rcases hw : b.isWin with _ | _
    · rfl
    · exfalso
      have hterm : (b.isWin || b.isDraw) = true := by simp [hw]
      have hmt := minimax_terminal b true b.currentPlayer hterm
      rw [hmt, evaluate_win_self b b.currentPlayer hw rfl] at hval
      omega
  refine ⟨hwin, ?_, ?_, hlen, hn⟩
  · intro hterm
    rcases hd : b.isDraw with _ | _
    · rw [hwin, hd] at hterm
      simp at hterm
    · rfl
  · intro hterm
    have hne := b.legal_ne_nil_of_nonterminal hterm
    obtain ⟨m, hfb, hmem, hub, _⟩ := findBestMoveOn_char b.getLegalMoves b hne
    exact ⟨b.applyMoveL m, b.getLegalMoves, m, List.Perm.refl _, hfb, rfl⟩

theorem selfPlay_always_draw_witness :
    initialBoard.isWin = false ∧
    ((initialBoard.isWin || initialBoard.isDraw) = true →
      initialBoard.isDraw = true) ∧
    ((initialBoard.isWin || initialBoard.isDraw) = false →
      ∃ b2, OptimalStep initialBoard b2) ∧
    initialBoard.getLegalMoves.length = 9 - 0 ∧ 0 ≤ 9 :=
  selfPlay_always_draw 0 initialBoard SelfPlay.init
